import Mathlib

/-!
Verification of the Speaky speech-input client UI layer against its
specification.  The UI layer (src/src/App.tsx, src/src/App.vue,
src/src/components/types.ts) drives an idle/recording/processing state
machine from backend events and issues the boundary commands
start_recording / stop_recording.  The binary frame codec lives in the
backend and is modelled here from the specification.
-/

namespace Speaky

/-- The recording state shown by the main window
(type RecordingState in src/src/App.tsx). -/
inductive RecordingState
  | idle
  | recording
  | processing
deriving DecidableEq, Repr

/-- The piece of component state of App.tsx that the recording flow
touches: the `state` and `transcript` React states plus the list of
toast messages shown so far (showToast appends one). -/
structure AppState where
  state : RecordingState
  transcript : String
  toasts : List String
deriving DecidableEq, Repr

/-- One observable step an App.tsx handler performs: a setState on the
recording state, an invoke of a backend command, or a toast. -/
inductive Effect
  | setSt (st : RecordingState)
  | invokeCmd (cmd : String)
  | toast (msg : String)
deriving DecidableEq, Repr

def applyEffect (s : AppState) : Effect → AppState
  | .setSt st => { s with state := st }
  | .invokeCmd _ => s
  | .toast m => { s with toasts := s.toasts ++ [m] }

def applyEffects (s : AppState) (es : List Effect) : AppState :=
  es.foldl applyEffect s

/-- Listener for recording-started (App.tsx lines 505-508):
setState("recording"); setTranscript(""). -/
def onRecordingStarted (s : AppState) : AppState :=
  { s with state := .recording, transcript := "" }

/-- Listener for recording-stopped (App.tsx lines 510-513):
setState("idle"); setTranscript(event.payload). -/
def onRecordingStopped (payload : String) (s : AppState) : AppState :=
  { s with state := .idle, transcript := payload }

/-- Listener for transcript-update (App.tsx lines 515-517):
setTranscript(event.payload). -/
def onTranscriptUpdate (payload : String) (s : AppState) : AppState :=
  { s with transcript := payload }

/-- Listener for error (App.tsx lines 519-521):
showToast(event.payload) and nothing else. -/
def onError (payload : String) (s : AppState) : AppState :=
  { s with toasts := s.toasts ++ [payload] }

/-- startRecording (App.tsx lines 669-678) as the sequence of effects it
performs, given the current state and the result of the awaited
invoke("start_recording"). -/
def startRecordingEffects (st : RecordingState) (result : Except String Unit) :
    List Effect :=
  if st ≠ .idle then []
  else
    Effect.invokeCmd "start_recording" ::
      match result with
      | .ok _ => []
      | .error e => [.toast e, .setSt .idle]

/-- stopRecording (App.tsx lines 680-690) as the sequence of effects it
performs, given the current state and the result of the awaited
invoke("stop_recording"). -/
def stopRecordingEffects (st : RecordingState) (result : Except String Unit) :
    List Effect :=
  if st ≠ .recording then []
  else
    Effect.setSt .processing ::
      Effect.invokeCmd "stop_recording" ::
        match result with
        | .ok _ => []
        | .error e => [.toast e, .setSt .idle]

def runStartRecording (s : AppState) (r : Except String Unit) : AppState :=
  applyEffects s (startRecordingEffects s.state r)

def runStopRecording (s : AppState) (r : Except String Unit) : AppState :=
  applyEffects s (stopRecordingEffects s.state r)

/-- The component state of the Vue variant of the main window
(src/src/App.vue): isRecording, isProcessing, transcript refs. -/
structure VueState where
  isRecording : Bool
  isProcessing : Bool
  transcript : String
deriving DecidableEq, Repr

/-- App.vue recording-started listener (lines 37-41). -/
def vueOnRecordingStarted (s : VueState) : VueState :=
  { s with isRecording := true, isProcessing := false, transcript := "" }

/-- App.vue transcript-update listener (lines 49-51). -/
def vueOnTranscriptUpdate (payload : String) (s : VueState) : VueState :=
  { s with transcript := payload }

/- ------------------------------------------------------------------ -/
/- Claims about the recording command handlers and event listeners.    -/
/- ------------------------------------------------------------------ -/

/-- C1: startRecording is a no-op (no backend command, no state change)
from every state other than idle, and it issues the backend
start_recording command exactly when the state is idle. -/
theorem startRecording_guard (s : AppState) (r : Except String Unit) :
    (s.state ≠ .idle →
      startRecordingEffects s.state r = [] ∧ runStartRecording s r = s) ∧
    (Effect.invokeCmd "start_recording" ∈ startRecordingEffects s.state r ↔
      s.state = .idle) := by
  obtain ⟨st, t, ts⟩ := s
  cases st <;> cases r <;>
    simp [startRecordingEffects, runStartRecording, applyEffects]

theorem startRecording_guard_witness :
    startRecordingEffects RecordingState.recording (.ok ()) = [] ∧
    runStartRecording ⟨.recording, "t", []⟩ (.ok ()) = ⟨.recording, "t", []⟩ ∧
    Effect.invokeCmd "start_recording" ∈
      startRecordingEffects RecordingState.idle (.ok ()) := by
  refine ⟨?_, ?_, ?_⟩
  · exact ((startRecording_guard ⟨.recording, "t", []⟩ (.ok ())).1 (by decide)).1
  · exact ((startRecording_guard ⟨.recording, "t", []⟩ (.ok ())).1 (by decide)).2
  · exact (startRecording_guard ⟨.idle, "t", []⟩ (.ok ())).2.mpr rfl

/-- C2: stopRecording is a no-op (no effects at all, hence no state
change and nothing emitted) from every state other than recording; from
recording it first sets the state to processing and only then issues the
backend stop_recording command. -/
theorem stopRecording_guard (s : AppState) (r : Except String Unit) :
    (s.state ≠ .recording →
      stopRecordingEffects s.state r = [] ∧ runStopRecording s r = s) ∧
    (s.state = .recording →
      ∃ rest, stopRecordingEffects s.state r =
        Effect.setSt .processing :: Effect.invokeCmd "stop_recording" :: rest) := by
  obtain ⟨st, t, ts⟩ := s
  cases st <;> cases r <;>
    simp [stopRecordingEffects, runStopRecording, applyEffects]

theorem stopRecording_guard_witness :
    stopRecordingEffects RecordingState.idle (.ok ()) = [] ∧
    runStopRecording ⟨.idle, "t", []⟩ (.ok ()) = ⟨.idle, "t", []⟩ ∧
    ∃ rest, stopRecordingEffects RecordingState.recording (.ok ()) =
      Effect.setSt .processing :: Effect.invokeCmd "stop_recording" :: rest := by
  refine ⟨?_, ?_, ?_⟩
  · exact ((stopRecording_guard ⟨.idle, "t", []⟩ (.ok ())).1 (by decide)).1
  · exact ((stopRecording_guard ⟨.idle, "t", []⟩ (.ok ())).1 (by decide)).2
  · exact (stopRecording_guard ⟨.recording, "t", []⟩ (.ok ())).2 rfl

/-- C3: every transcript-update event replaces the displayed text
wholesale with the event payload, regardless of the previous text, in
both the React (App.tsx) and Vue (App.vue) main windows; the recording
state is untouched. -/
theorem transcriptUpdate_replaces (s : AppState) (v : VueState) (t : String) :
    (onTranscriptUpdate t s).transcript = t ∧
    (onTranscriptUpdate t s).state = s.state ∧
    (vueOnTranscriptUpdate t v).transcript = t := by
  simp [onTranscriptUpdate, vueOnTranscriptUpdate]

/-- C4 counterexample: receiving an error event while the UI state is
recording leaves the state recording, not idle — the App.tsx error
listener only shows a toast. -/
theorem errorListener_keeps_recording :
    ¬ (onError "boom" ⟨.recording, "hi", []⟩).state = RecordingState.idle := by
  decide

/-- C4 amended: the error listener surfaces the message as a toast and
changes nothing else — the recording state and transcript are left
exactly as they were, for every prior state. -/
theorem errorListener_behavior (s : AppState) (m : String) :
    (onError m s).state = s.state ∧
    (onError m s).transcript = s.transcript ∧
    (onError m s).toasts = s.toasts ++ [m] := by
  simp [onError]

/-- C5: when start_recording is issued from idle and the backend call
fails with any error, the UI state is idle after the handler finishes
and the error message has been surfaced as a toast. -/
theorem startRecording_error_atomic (s : AppState) (e : String)
    (h : s.state = .idle) :
    (runStartRecording s (.error e)).state = RecordingState.idle ∧
    e ∈ (runStartRecording s (.error e)).toasts := by
  obtain ⟨st, t, ts⟩ := s
  subst h
  simp [runStartRecording, startRecordingEffects, applyEffects, applyEffect]

theorem startRecording_error_atomic_witness :
    (runStartRecording ⟨.idle, "", []⟩ (.error "CredentialsMissing")).state =
      RecordingState.idle ∧
    "CredentialsMissing" ∈
      (runStartRecording ⟨.idle, "", []⟩ (.error "CredentialsMissing")).toasts :=
  startRecording_error_atomic ⟨.idle, "", []⟩ "CredentialsMissing" rfl

/-- C6: the recording-stopped listener sets the state to idle and the
displayed transcript to exactly the event payload, for every payload and
every prior state. -/
theorem recordingStopped_final (s : AppState) (t : String) :
    (onRecordingStopped t s).state = RecordingState.idle ∧
    (onRecordingStopped t s).transcript = t := by
  simp [onRecordingStopped]

/-- C9: the recording-started listener puts the UI in the recording
state and clears the displayed transcript to the empty string, in both
the React and Vue main windows, whatever was displayed before. -/
theorem recordingStarted_resets (s : AppState) (v : VueState) :
    (onRecordingStarted s).state = RecordingState.recording ∧
    (onRecordingStarted s).transcript = "" ∧
    (vueOnRecordingStarted v).isRecording = true ∧
    (vueOnRecordingStarted v).transcript = "" := by
  simp [onRecordingStarted, vueOnRecordingStarted]

/- ------------------------------------------------------------------ -/
/- Post-process provider management (App.tsx deleteProvider).          -/
/- ------------------------------------------------------------------ -/

/-- An LLM provider record (interface LlmProvider,
src/src/components/types.ts lines 72-78). -/
structure LlmProvider where
  id : String
  name : String
  api_base : String
  api_key : String
  model : String
deriving DecidableEq, Repr

/-- Post-process mode (type PostProcessMode in types.ts). -/
inductive PostProcessMode
  | general
  | code
  | meeting
deriving DecidableEq, Repr

/-- Post-process configuration (interface PostProcessConfig,
src/src/components/types.ts lines 80-85). -/
structure PostProcessConfig where
  enabled : Bool
  providers : List LlmProvider
  active_provider_id : String
  mode : PostProcessMode
deriving DecidableEq, Repr

/-- JavaScript Array.prototype.filter((_, i) => i !== index): drop the
element at the given position, returning the list unchanged when the
position is out of range. -/
def removeAtIdx {α : Type} : List α → Nat → List α
  | [], _ => []
  | _ :: xs, 0 => xs
  | x :: xs, n + 1 => x :: removeAtIdx xs n

/-- JavaScript `x?.id || ""` applied to the optional head provider id:
undefined and the empty string are both falsy and give "". -/
def jsIdOrEmpty : Option String → String
  | none => ""
  | some s => if s = "" then "" else s

/-- deleteProvider (App.tsx lines 1056-1066).  Reads
providers[index] (none models the JS TypeError on an out-of-range
index), filters that index out, and reassigns active_provider_id to the
first remaining provider (or "") only when the deleted provider was the
active one. -/
def deleteProvider (pp : PostProcessConfig) (index : Nat) :
    Option PostProcessConfig :=
  match pp.providers[index]? with
  | none => none
  | some provider =>
    let newProviders := removeAtIdx pp.providers index
    let newActiveId :=
      if pp.active_provider_id = provider.id then
        jsIdOrEmpty ((newProviders.head?).map LlmProvider.id)
      else pp.active_provider_id
    some { pp with providers := newProviders, active_provider_id := newActiveId }

/-- C10: deleting the provider at a valid index removes exactly that
list position and keeps enabled and mode; active_provider_id is kept
when the deleted provider was not the active one, and otherwise becomes
the id of the first remaining provider, or "" when none remain. -/
theorem deleteProvider_spec (pp : PostProcessConfig) (index : Nat)
    (p : LlmProvider) (h : pp.providers[index]? = some p) :
    ∃ cfg, deleteProvider pp index = some cfg ∧
      cfg.enabled = pp.enabled ∧
      cfg.mode = pp.mode ∧
      cfg.providers = removeAtIdx pp.providers index ∧
      (pp.active_provider_id ≠ p.id →
        cfg.active_provider_id = pp.active_provider_id) ∧
      (pp.active_provider_id = p.id →
        cfg.active_provider_id =
          match (removeAtIdx pp.providers index).head? with
          | some q => q.id
          | none => "") := by
  refine ⟨_, by rw [deleteProvider, h], ?_, ?_, ?_, ?_, ?_⟩ <;> simp only
  · intro hne
    simp [if_neg hne]
  · intro heq
    rw [if_pos heq]
    rcases (removeAtIdx pp.providers index).head? with _ | q
    · rfl
    · show jsIdOrEmpty (some q.id) = q.id
      rw [jsIdOrEmpty]
      split <;> simp_all

theorem deleteProvider_spec_witness :
    ∃ cfg,
      deleteProvider
        ⟨true, [⟨"a", "A", "", "", ""⟩, ⟨"b", "B", "", "", ""⟩], "a",
          .general⟩ 0 = some cfg ∧
      cfg.enabled = true ∧
      cfg.mode = PostProcessMode.general ∧
      cfg.providers =
        removeAtIdx [⟨"a", "A", "", "", ""⟩, ⟨"b", "B", "", "", ""⟩] 0 ∧
      ("a" ≠ "a" → cfg.active_provider_id = "a") ∧
      ("a" = "a" →
        cfg.active_provider_id =
          match (removeAtIdx
              ([⟨"a", "A", "", "", ""⟩, ⟨"b", "B", "", "", ""⟩] :
                List LlmProvider) 0).head? with
          | some q => q.id
          | none => "") :=
  deleteProvider_spec
    ⟨true, [⟨"a", "A", "", "", ""⟩, ⟨"b", "B", "", "", ""⟩], "a", .general⟩
    0 ⟨"a", "A", "", "", ""⟩ rfl

/- ------------------------------------------------------------------ -/
/- Shape of the boundary configuration object.                         -/
/- ------------------------------------------------------------------ -/

/-- Field names of interface Config
(src/src/components/types.ts lines 14-29). -/
def configFields : List String :=
  ["app_id", "access_token", "secret_key", "shortcut", "auto_type",
   "auto_copy", "auto_start", "silent_start", "show_indicator",
   "realtime_input", "postprocess", "audio_device", "asr", "asr_language"]

/-- Field names of interface PostProcessConfig
(src/src/components/types.ts lines 80-85). -/
def postProcessConfigFields : List String :=
  ["enabled", "providers", "active_provider_id", "mode"]

/-- Field names of interface LlmProvider
(src/src/components/types.ts lines 72-78). -/
def llmProviderFields : List String :=
  ["id", "name", "api_base", "api_key", "model"]

/-- Top-level configuration field names as the claim states them. -/
def claimedConfigFields : List String :=
  ["appId", "accessToken", "secretKey", "language", "audioDeviceName",
   "postprocess"]

/-- Postprocess field names as the claim states them. -/
def claimedPostprocessFields : List String :=
  ["enabled", "mode", "provider"]

/-- C7 counterexample: the configuration object does not have the
claimed shape — the claimed top-level names appId and audioDeviceName
do not occur among the code's Config fields, and postprocess has no
single provider field but a providers list. -/
theorem configShape_differs :
    configFields ≠ claimedConfigFields ∧
    "appId" ∉ configFields ∧
    "audioDeviceName" ∉ configFields ∧
    "provider" ∉ postProcessConfigFields ∧
    "providers" ∈ postProcessConfigFields := by
  decide

/-- C7 amended: of the claimed top-level field names only postprocess
occurs in the code's Config, whose fields are snake_case and include
several more; of the claimed postprocess fields only enabled and mode
occur, the provider data living as a providers list of records with
snake_case fields api_base, api_key, model together with an
active_provider_id selector. -/
theorem configShape_actual :
    claimedConfigFields.inter configFields = ["postprocess"] ∧
    claimedPostprocessFields.inter postProcessConfigFields =
      ["enabled", "mode"] ∧
    "active_provider_id" ∈ postProcessConfigFields ∧
    "api_base" ∈ llmProviderFields ∧
    "api_key" ∈ llmProviderFields ∧
    "model" ∈ llmProviderFields ∧
    "audio_device" ∈ configFields ∧
    "asr_language" ∈ configFields := by
  decide

/- ------------------------------------------------------------------ -/
/- FrameCodec, modelled from the specification.                        -/
/- ------------------------------------------------------------------ -/

/-- Modelled from the spec: the FrameCodec component lives in the
backend, which is not part of the shipped frontend sources; the message
type enum of a ProtocolFrame per section 3 of the spec. -/
inductive MessageType
  | clientHandshake
  | clientAudio
  | clientFinalize
  | serverPartialResult
  | serverFinalResult
  | serverError
deriving DecidableEq, Repr

/-- Header byte for a message type. -/
def MessageType.toByte : MessageType → Nat
  | .clientHandshake => 1
  | .clientAudio => 2
  | .clientFinalize => 3
  | .serverPartialResult => 4
  | .serverFinalResult => 5
  | .serverError => 6

/-- Recognize a message type byte; an unrecognized byte is a
MalformedFrame error, modelled as none. -/
def messageTypeOfByte (b : Nat) : Option MessageType :=
  if b = 1 then some .clientHandshake
  else if b = 2 then some .clientAudio
  else if b = 3 then some .clientFinalize
  else if b = 4 then some .serverPartialResult
  else if b = 5 then some .serverFinalResult
  else if b = 6 then some .serverError
  else none

/-- Modelled from the spec: a ProtocolFrame per section 3 —
messageType, compressed flag, u32 sequence, payload bytes. -/
structure ProtocolFrame where
  messageType : MessageType
  compressed : Bool
  sequence : Nat
  payload : List Nat
deriving DecidableEq, Repr

/-- Modelled from the spec: the session's negotiated deflate-family
compressor, abstracted as a compress and decompress pair. -/
structure Compressor where
  compress : List Nat → List Nat
  decompress : List Nat → List Nat

/-- A u32 as four big-endian bytes. -/
def u32be (n : Nat) : List Nat :=
  [n / 16777216 % 256, n / 65536 % 256, n / 256 % 256, n % 256]

/-- A u32 from four big-endian bytes. -/
def u32ofBytes (b0 b1 b2 b3 : Nat) : Nat :=
  ((b0 * 256 + b1) * 256 + b2) * 256 + b3

/-- Modelled from the spec: FrameCodec.encode per section 4.3.  A fixed
header carrying the message type, the compression flag and the
sequence, then a 4-byte big-endian payload length, then the payload;
when the compression flag is set the payload is compressed before the
length is computed. -/
def encode (c : Compressor) (f : ProtocolFrame) : List Nat :=
  let body := if f.compressed then c.compress f.payload else f.payload
  f.messageType.toByte :: (if f.compressed then 1 else 0) ::
    (u32be f.sequence ++ (u32be body.length ++ body))

/-- Modelled from the spec: FrameCodec.decode per section 4.3.  An
unrecognized message type, a length field that does not match the
remaining buffer, or a buffer shorter than the header is a
MalformedFrame error (none); a set compression flag makes decode
decompress the payload before returning it. -/
def decode (c : Compressor) (bytes : List Nat) : Option ProtocolFrame :=
  match bytes with
  | mt :: cf :: s0 :: s1 :: s2 :: s3 :: l0 :: l1 :: l2 :: l3 :: rest =>
    match messageTypeOfByte mt with
    | none => none
    | some m =>
      if rest.length = u32ofBytes l0 l1 l2 l3 then
        some { messageType := m,
               compressed := cf == 1,
               sequence := u32ofBytes s0 s1 s2 s3,
               payload := if cf == 1 then c.decompress rest else rest }
      else none
  | _ => none

theorem u32_roundtrip (n : Nat) (h : n < 4294967296) :
    u32ofBytes (n / 16777216 % 256) (n / 65536 % 256) (n / 256 % 256)
      (n % 256) = n := by
  rw [u32ofBytes]
  omega

/-- C8: spec-modelled round-trip — for every ProtocolFrame whose
sequence fits a u32, whose (possibly compressed) body length fits the
4-byte length field, and whose payload the negotiated compressor
decompresses back, decoding the encoding yields the frame, with the
compressed flag either set or unset. -/
theorem frame_roundtrip (c : Compressor) (f : ProtocolFrame)
    (hseq : f.sequence < 4294967296)
    (hlen : (if f.compressed then c.compress f.payload else f.payload).length <
      4294967296)
    (hinv : f.compressed = true →
      c.decompress (c.compress f.payload) = f.payload) :
    decode c (encode c f) = some f := by
  obtain ⟨m, cp, seq, pl⟩ := f
  cases cp
  · simp only [Bool.false_eq_true, if_false] at hlen ⊢
    have hL := u32_roundtrip pl.length hlen
    have hS := u32_roundtrip seq hseq
    cases m <;>
      simp [encode, decode, u32be, MessageType.toByte, messageTypeOfByte,
        hL, hS]
  · simp only [if_true] at hlen ⊢
    have hL := u32_roundtrip (c.compress pl).length hlen
    have hS := u32_roundtrip seq hseq
    have hD := hinv rfl
    cases m <;>
      simp [encode, decode, u32be, MessageType.toByte, messageTypeOfByte,
        hL, hS, hD]

/-- The identity compressor used to instantiate the round-trip at a
concrete frame. -/
def idCompressor : Compressor :=
  { compress := fun l => l, decompress := fun l => l }

theorem frame_roundtrip_witness :
    decode idCompressor
        (encode idCompressor ⟨.clientAudio, true, 7, [10, 20, 30]⟩) =
      some ⟨.clientAudio, true, 7, [10, 20, 30]⟩ :=
  frame_roundtrip idCompressor ⟨.clientAudio, true, 7, [10, 20, 30]⟩
    (by decide) (by decide) (fun _ => rfl)

end Speaky
